import Mathlib

/-!
# Shazam audio-fingerprinting service: verification of the specification

This file gives a shallow embedding of the parts of the Shazam repository
that the specification's claims talk about, and settles each claim against
it.

The repository's core fingerprinting engine (`backend/shazam_core`), the
database handler (`backend/database/db_handler.py`) and the Flask server
(`backend/app.py`) are documented in detail in the in-repo document
`Coding_plan.md` (sections 2-5 of its implementation-details part) and in
`backend/database/schema.sql`; the frontend sources
(`frontend/src/pages/HomePage.jsx`, `frontend/src/pages/AdminPage.jsx`,
`frontend/src/services/websocketService.js`, `frontend/src/services/apiService.js`)
are present verbatim.  Definitions below are translated from those sources;
where a Python file itself is absent, the definition is modelled from the
specification and the in-repo documentation and its doc comment says so.
-/

/-! ## Parameter block (Coding_plan.md sections 2.1-3.1, spec section 6) -/

/-- `target_sample_rate` of the `Fingerprinter`: 11025 Hz. -/
def sampleRate : Nat := 11025

/-- STFT `window_size`: 4096 samples. -/
def windowSize : Nat := 4096

/-- STFT `hop_size`: 1024 samples. -/
def hopSize : Nat := 1024

/-- The target zone starts `target_zone_t_start = 1` frame after the anchor. -/
def targetZoneTStart : Nat := 1

/-- The target zone spans `target_zone_t_len = 100` frames. -/
def targetZoneTLen : Nat := 100

/-- Each anchor is paired with up to `fan_value = 15` targets. -/
def fanValue : Nat := 15

/-- Default `min_absolute_matches` threshold of the matcher. -/
def minAbsoluteMatchesDefault : Nat := 2

/-- Default `top_k` of the matcher. -/
def topKDefault : Nat := 1

/-! ## Peaks and combinatorial hashing

`Coding_plan.md` section 2.3: a `Peak` stores its time index (`time_idx`),
frequency index (`freq_idx`), actual time (`time`) and frequency (`freq`).
The derived fields satisfy `freq = freq_idx * sample_rate / window_size`
(the STFT bin frequency in Hz); we keep the two index fields and recover
`int(freq)` exactly, see `peakFreqInt`.
-/

/-- A spectrogram peak: STFT frame index and frequency bin index. -/
structure Peak where
  time_idx : Nat
  freq_idx : Nat
deriving DecidableEq, Repr

/-- `int(peak.freq)` as computed by the source.  The source stores
`freq = freq_idx * sample_rate / window_size` as a float; the product is
below `2^53` and the divisor is a power of two, so the float value is the
exact rational and Python's `int` truncation equals this `Nat` division. -/
def peakFreqInt (p : Peak) : Nat := p.freq_idx * sampleRate / windowSize

/-- The 32-bit layout `(f1 << 20) | (f2 << 10) | dt` of `_create_hash`
(`Coding_plan.md` section 3.2). -/
def packTriple (f1 f2 dt : Nat) : Nat := ((f1 <<< 20) ||| (f2 <<< 10)) ||| dt

/-- Field extraction from a packed hash: bits 20-31, bits 10-19, bits 0-9. -/
def unpackTriple (h : Nat) : Nat × Nat × Nat :=
  ((h >>> 20) &&& 0xFFF, (h >>> 10) &&& 0x3FF, h &&& 0x3FF)

/-- `Fingerprinter._create_hash` (`Coding_plan.md` section 3.2): the hash is
built from `int(anchor_peak.freq) & 0xFFF` (12 bits),
`int(target_peak.freq) & 0x3FF` (10 bits) and
`int(time_delta) & 0x3FF` (10 bits), packed as
`(f1_binned << 20) | (f2_binned << 10) | dt_binned`.
Note that the frequencies entering the hash are the peak frequencies in Hz
(`peak.freq`), not the frequency bin indices. -/
def createHash (anchor target : Peak) : Nat :=
  packTriple (peakFreqInt anchor &&& 0xFFF) (peakFreqInt target &&& 0x3FF)
    ((target.time_idx - anchor.time_idx) &&& 0x3FF)

/-- Stated from the spec's words, for comparison with the source's
`createHash`: the same packing applied to the peaks' frequency BIN INDICES
(`f_idx`) instead of their frequencies in Hz. -/
def claimedIndexHash (anchor target : Peak) : Nat :=
  packTriple (anchor.freq_idx &&& 0xFFF) (target.freq_idx &&& 0x3FF)
    ((target.time_idx - anchor.time_idx) &&& 0x3FF)

/-- A subsequent peak is a valid target when its frame distance from the
anchor lies in `[target_zone_t_start, target_zone_t_start + target_zone_t_len)`. -/
def validTarget (anchor target : Peak) : Bool :=
  decide (targetZoneTStart ≤ target.time_idx - anchor.time_idx) &&
    decide (target.time_idx - anchor.time_idx < targetZoneTStart + targetZoneTLen)

/-- The targets paired with one anchor: among the peaks after it (in sorted
order), those inside the target zone, capped at `fan_value`. -/
def targetsFor (anchor : Peak) (rest : List Peak) : List Peak :=
  (rest.filter (fun b => validTarget anchor b)).take fanValue

/-- `Fingerprinter.generate_fingerprints` (`Coding_plan.md` sections 3.1-3.3):
walk the time-sorted peak list; each peak is an anchor, paired with up to
`fan_value` valid targets among the subsequent peaks; each pair emits
`(createHash anchor target, anchor.time_idx)`. -/
def generateFingerprints : List Peak → List (Nat × Nat)
  | [] => []
  | anchor :: rest =>
      (targetsFor anchor rest).map (fun b => (createHash anchor b, anchor.time_idx))
        ++ generateFingerprints rest

/-! ## Arithmetic facts about the bit layout -/

/-- Bitwise or of `2 ^ k * a` with `b < 2 ^ k` is plain addition: the two
summands occupy disjoint bit ranges. -/
theorem two_pow_mul_lor_eq_add (k : Nat) :
    ∀ a b : Nat, b < 2 ^ k → 2 ^ k * a ||| b = 2 ^ k * a + b := by
  induction k with
  | zero =>
    intro a b hb
    have hb0 : b = 0 := by omega
    subst hb0
    simp
  | succ k ih =>
    intro a b hb
    have hsplit : Nat.bit (Nat.bodd b) (Nat.div2 b) = b := Nat.bit_decomp b
    have hpow : 2 ^ (k + 1) * a = 2 * (2 ^ k * a) := by rw [Nat.pow_succ]; ring
    have hleft : 2 ^ (k + 1) * a = Nat.bit false (2 ^ k * a) := by
      rw [Nat.bit_val, hpow]
      simp
    have hdiv : Nat.div2 b < 2 ^ k := by
      rw [Nat.div2_val]
      omega
    calc 2 ^ (k + 1) * a ||| b
        = Nat.bit false (2 ^ k * a) ||| Nat.bit (Nat.bodd b) (Nat.div2 b) := by
          rw [hleft, hsplit]
      _ = Nat.bit (false || Nat.bodd b) ((2 ^ k * a) ||| Nat.div2 b) := Nat.lor_bit _ _ _ _
      _ = Nat.bit (Nat.bodd b) (2 ^ k * a + Nat.div2 b) := by rw [Bool.false_or, ih _ _ hdiv]
      _ = 2 ^ (k + 1) * a + b := by
          have hb2 : 2 * Nat.div2 b + (Nat.bodd b).toNat = b := by
            have hd := Nat.bit_decomp b
            rw [Nat.bit_val] at hd
            omega
          rw [Nat.bit_val, hpow]
          omega

/-- With in-range middle and low fields, the packed hash is the weighted sum
of its three fields. -/
theorem packTriple_eq_arith (f1 f2 dt : Nat) (h2 : f2 < 2 ^ 10) (h3 : dt < 2 ^ 10) :
    packTriple f1 f2 dt = f1 * 2 ^ 20 + f2 * 2 ^ 10 + dt := by
  unfold packTriple
  rw [Nat.shiftLeft_eq, Nat.shiftLeft_eq]
  have hmid : f2 * 2 ^ 10 < 2 ^ 20 := by
    have : f2 * 2 ^ 10 < 2 ^ 10 * 2 ^ 10 := by
      exact Nat.mul_lt_mul_of_lt_of_le h2 (Nat.le_refl _) (by norm_num)
    calc f2 * 2 ^ 10 < 2 ^ 10 * 2 ^ 10 := this
      _ = 2 ^ 20 := by norm_num
  have h1 : f1 * 2 ^ 20 ||| f2 * 2 ^ 10 = f1 * 2 ^ 20 + f2 * 2 ^ 10 := by
    have := two_pow_mul_lor_eq_add 20 f1 (f2 * 2 ^ 10) hmid
    calc f1 * 2 ^ 20 ||| f2 * 2 ^ 10 = 2 ^ 20 * f1 ||| f2 * 2 ^ 10 := by rw [Nat.mul_comm]
      _ = 2 ^ 20 * f1 + f2 * 2 ^ 10 := this
      _ = f1 * 2 ^ 20 + f2 * 2 ^ 10 := by rw [Nat.mul_comm (2 ^ 20) f1]
  rw [h1]
  have hsum : f1 * 2 ^ 20 + f2 * 2 ^ 10 = 2 ^ 10 * (f1 * 2 ^ 10 + f2) := by ring
  calc f1 * 2 ^ 20 + f2 * 2 ^ 10 ||| dt
      = 2 ^ 10 * (f1 * 2 ^ 10 + f2) ||| dt := by rw [hsum]
    _ = 2 ^ 10 * (f1 * 2 ^ 10 + f2) + dt := two_pow_mul_lor_eq_add 10 _ dt h3
    _ = f1 * 2 ^ 20 + f2 * 2 ^ 10 + dt := by ring

/-- Claim C2: for every triple `(f1, f2, dt)` with `f1 < 2^12`, `f2 < 2^10`
and `dt < 2^10`, packing it as `(f1 << 20) | (f2 << 10) | dt` and then
unpacking the 32-bit hash (bits 20-31, bits 10-19, bits 0-9) yields exactly
the original triple. -/
theorem pack_unpack_roundtrip (f1 f2 dt : Nat)
    (h1 : f1 < 2 ^ 12) (h2 : f2 < 2 ^ 10) (h3 : dt < 2 ^ 10) :
    unpackTriple (packTriple f1 f2 dt) = (f1, f2, dt) := by
  rw [packTriple_eq_arith f1 f2 dt h2 h3]
  unfold unpackTriple
  have e12 : (0xFFF : Nat) = 2 ^ 12 - 1 := by norm_num
  have e10 : (0x3FF : Nat) = 2 ^ 10 - 1 := by norm_num
  rw [e12, e10, Nat.shiftRight_eq_div_pow, Nat.shiftRight_eq_div_pow,
    Nat.and_pow_two_sub_one_eq_mod, Nat.and_pow_two_sub_one_eq_mod,
    Nat.and_pow_two_sub_one_eq_mod]
  have hf1 : (f1 * 2 ^ 20 + f2 * 2 ^ 10 + dt) / 2 ^ 20 % 2 ^ 12 = f1 := by omega
  have hf2 : (f1 * 2 ^ 20 + f2 * 2 ^ 10 + dt) / 2 ^ 10 % 2 ^ 10 = f2 := by omega
  have hdt : (f1 * 2 ^ 20 + f2 * 2 ^ 10 + dt) % 2 ^ 10 = dt := by omega
  rw [hf1, hf2, hdt]

/-- Witness for C2 at the concrete triple `(7, 9, 3)`. -/
theorem pack_unpack_roundtrip_witness :
    unpackTriple (packTriple 7 9 3) = (7, 9, 3) :=
  pack_unpack_roundtrip 7 9 3 (by decide) (by decide) (by decide)

/-! ## Claim C1: what enters the top hash field -/

/-- Counterexample to claim C1 as stated: for the anchor peak
`(t_idx, f_idx) = (0, 100)` and accepted target `(5, 200)`, the pipeline
emits the hash built from the peaks' frequencies in Hz
(`int(100 * 11025 / 4096) = 269`, `int(200 * 11025 / 4096) = 538`), which
differs from the hash the claim prescribes from the bin indices. -/
theorem hash_bin_index_counterexample :
    generateFingerprints [⟨0, 100⟩, ⟨5, 200⟩] = [(createHash ⟨0, 100⟩ ⟨5, 200⟩, 0)] ∧
    createHash ⟨0, 100⟩ ⟨5, 200⟩ = 282617861 ∧
    claimedIndexHash ⟨0, 100⟩ ⟨5, 200⟩ = 105062405 ∧
    createHash ⟨0, 100⟩ ⟨5, 200⟩ ≠ claimedIndexHash ⟨0, 100⟩ ⟨5, 200⟩ := by
  decide

/-- Claim C1 as amended: every fingerprint emitted by the pipeline comes
from an anchor `a` and an accepted target `b`, carries `a.time_idx`, and its
hash packs the truncated peak frequencies in Hz — not the bin indices — as
`hash = ((int(a.freq) & 0xFFF) << 20) | ((int(b.freq) & 0x3FF) << 10) |
((b.t_idx - a.t_idx) & 0x3FF)` with `int(p.freq) = p.f_idx * 11025 / 4096`. -/
theorem hash_from_hz_freq (ps : List Peak) (h t : Nat)
    (hmem : (h, t) ∈ generateFingerprints ps) :
    ∃ a b, a ∈ ps ∧ b ∈ ps ∧ validTarget a b = true ∧ t = a.time_idx ∧
      h = packTriple ((a.freq_idx * sampleRate / windowSize) &&& 0xFFF)
            ((b.freq_idx * sampleRate / windowSize) &&& 0x3FF)
            ((b.time_idx - a.time_idx) &&& 0x3FF) := by
  induction ps with
  | nil => simp [generateFingerprints] at hmem
  | cons anchor rest ih =>
    rw [generateFingerprints, List.mem_append] at hmem
    rcases hmem with hleft | hright
    · rcases List.mem_map.mp hleft with ⟨b, hb, heq⟩
      have hbf : b ∈ rest.filter (fun b => validTarget anchor b) :=
        List.mem_of_mem_take hb
      have hbrest : b ∈ rest := (List.mem_filter.mp hbf).1
      have hvalid : validTarget anchor b = true := (List.mem_filter.mp hbf).2
      refine ⟨anchor, b, List.mem_cons_self _ _, List.mem_cons_of_mem _ hbrest,
        hvalid, ?_, ?_⟩
      · exact congrArg Prod.snd heq.symm
      · have hfst : h = createHash anchor b := congrArg Prod.fst heq.symm
        rw [hfst]
        rfl
    · rcases ih hright with ⟨a, b, ha, hb, hv, ht, hh⟩
      exact ⟨a, b, List.mem_cons_of_mem _ ha, List.mem_cons_of_mem _ hb, hv, ht, hh⟩

/-- Witness for the amended C1 at a concrete peak list: the single emitted
fingerprint of `[(0,100), (5,200)]`. -/
theorem hash_from_hz_freq_witness :
    ((282617861 : Nat), (0 : Nat)) ∈ generateFingerprints [⟨0, 100⟩, ⟨5, 200⟩] ∧
    (∃ a b, a ∈ [Peak.mk 0 100, Peak.mk 5 200] ∧ b ∈ [Peak.mk 0 100, Peak.mk 5 200] ∧
      validTarget a b = true ∧ (0 : Nat) = a.time_idx ∧
      (282617861 : Nat) = packTriple ((a.freq_idx * sampleRate / windowSize) &&& 0xFFF)
        ((b.freq_idx * sampleRate / windowSize) &&& 0x3FF)
        ((b.time_idx - a.time_idx) &&& 0x3FF)) :=
  ⟨by decide, hash_from_hz_freq [⟨0, 100⟩, ⟨5, 200⟩] 282617861 0 (by decide)⟩

/-! ## Matcher (`FingerprintMatcher`, Coding_plan.md section 5, spec section 4.6)

`backend/shazam_core/fingerprinting.py` is not under `src/`; the matcher
below is modelled from the specification's histogram-alignment algorithm
and the in-repo description in `Coding_plan.md` section 5.3.
-/

/-- A `(hash, song_id, timestamp)` row returned by
`db_handler.get_matches_by_hashes`. -/
structure DbRow where
  hash : Nat
  song_id : Nat
  timestamp : Nat
deriving DecidableEq, Repr

/-- A query fingerprint `(hash, anchor offset in STFT frames)`. -/
structure QueryFingerprint where
  hash : Nat
  offset : Nat
deriving DecidableEq, Repr

/-- A scored alignment candidate: `song_id`, `score` (number of aligned hash
pairs) and the best `offset_delta` in frames. -/
structure MatchCandidate where
  song_id : Nat
  score : Nat
  offset_delta : Int
deriving DecidableEq, Repr

/-- Modelled from the spec: for each database row whose hash occurs in the
query and each query occurrence of that hash, the pair
`(song_id, offset_delta)` with `offset_delta = db_timestamp - query_offset`
(signed). -/
def matchPairs (db : List DbRow) (q : List QueryFingerprint) : List (Nat × Int) :=
  db.flatMap (fun r =>
    (q.filter (fun f => f.hash == r.hash)).map
      (fun f => (r.song_id, (r.timestamp : Int) - (f.offset : Int))))

/-- The candidate song ids, each listed once. -/
def candidateSongs (db : List DbRow) (q : List QueryFingerprint) : List Nat :=
  ((matchPairs db q).map Prod.fst).dedup

/-- All offset deltas recorded for one candidate song. -/
def deltasFor (db : List DbRow) (q : List QueryFingerprint) (s : Nat) : List Int :=
  ((matchPairs db q).filter (fun p => p.1 == s)).map Prod.snd

/-- Histogram-entry comparison: higher count wins; ties on count are broken
by the smaller absolute delta. -/
def betterAlignment (x y : Int × Nat) : Bool :=
  y.2 < x.2 || (x.2 == y.2 && x.1.natAbs < y.1.natAbs)

/-- Pick the best `(delta, count)` entry of a nonempty histogram. -/
def argmaxAlignment : List (Int × Nat) → Option (Int × Nat)
  | [] => none
  | p :: ps => some (ps.foldl (fun best x => if betterAlignment x best then x else best) p)

/-- Modelled from the spec: the best-supported alignment of one song — the
`offset_delta` with the highest count in the song's histogram. -/
def bestAlignment (deltas : List Int) : Option (Int × Nat) :=
  argmaxAlignment (deltas.dedup.map (fun d => (d, deltas.count d)))

/-- Modelled from the spec: one `MatchCandidate` per song appearing in the
lookup results, scored by its best histogram bin. -/
def candidates (db : List DbRow) (q : List QueryFingerprint) : List MatchCandidate :=
  (candidateSongs db q).filterMap (fun s =>
    (bestAlignment (deltasFor db q s)).map (fun p => ⟨s, p.2, p.1⟩))

/-- The matcher's ordering: score descending. -/
def scoreGE (a b : MatchCandidate) : Prop := b.score ≤ a.score

instance : DecidableRel scoreGE := fun _ b => Nat.decLe b.score _

instance : IsTotal MatchCandidate scoreGE := ⟨fun a b => Nat.le_total b.score a.score⟩

instance : IsTrans MatchCandidate scoreGE := ⟨fun _ _ _ h1 h2 => Nat.le_trans h2 h1⟩

/-- Modelled from the spec: `FingerprintMatcher.match_file` — build the
candidates, discard any with `score < min_absolute_matches`, sort by score
descending, return the top `top_k`. -/
def matchQuery (topK minAbs : Nat) (db : List DbRow) (q : List QueryFingerprint) :
    List MatchCandidate :=
  (List.insertionSort scoreGE
    ((candidates db q).filter (fun c => decide (minAbs ≤ c.score)))).take topK

/-- Claim C3: the matcher's result list is sorted by score descending, has
length at most `top_k`, contains no candidate scoring below
`min_absolute_matches`, and is empty when no candidate reaches the
threshold. -/
theorem matcher_output_contract (topK minAbs : Nat) (db : List DbRow)
    (q : List QueryFingerprint) :
    List.Sorted scoreGE (matchQuery topK minAbs db q) ∧
    (matchQuery topK minAbs db q).length ≤ topK ∧
    (∀ c ∈ matchQuery topK minAbs db q, minAbs ≤ c.score) ∧
    ((∀ c ∈ candidates db q, c.score < minAbs) → matchQuery topK minAbs db q = []) := by
  refine ⟨?_, ?_, ?_, ?_⟩
  · exact List.Pairwise.sublist (List.take_sublist _ _)
      (List.sorted_insertionSort scoreGE _)
  · exact List.length_take_le _ _
  · intro c hc
    have hsort : c ∈ List.insertionSort scoreGE
        ((candidates db q).filter (fun c => decide (minAbs ≤ c.score))) :=
      List.mem_of_mem_take hc
    have hfilter : c ∈ (candidates db q).filter (fun c => decide (minAbs ≤ c.score)) :=
      (List.perm_insertionSort scoreGE _).mem_iff.mp hsort
    have := (List.mem_filter.mp hfilter).2
    exact of_decide_eq_true this
  · intro hall
    have hnil : (candidates db q).filter (fun c => decide (minAbs ≤ c.score)) = [] := by
      apply List.filter_eq_nil_iff.mpr
      intro c hc
      have := hall c hc
      simp only [decide_eq_true_eq]
      omega
    rw [matchQuery, hnil]
    simp [List.insertionSort]

/-- Witness for C3: a library row scoring 1 with the default threshold 2
produces the empty result, of length at most the default `top_k = 1`. -/
theorem matcher_output_contract_witness :
    matchQuery 1 2 [⟨1, 7, 3⟩] [⟨1, 0⟩] = [] ∧
    (matchQuery 1 2 [⟨1, 7, 3⟩] [⟨1, 0⟩]).length ≤ 1 :=
  ⟨(matcher_output_contract 1 2 [⟨1, 7, 3⟩] [⟨1, 0⟩]).2.2.2 (by decide),
    (matcher_output_contract 1 2 [⟨1, 7, 3⟩] [⟨1, 0⟩]).2.1⟩

/-! ## Fingerprint store (`schema.sql`, `db_handler.py`, spec section 4.5)

`backend/database/schema.sql` is under `src/`: the `songs` table has
`id INTEGER PRIMARY KEY AUTOINCREMENT`, metadata columns, and
`UNIQUE(source_type, source_id)`; the `fingerprints` table has
`hash`, `song_id` (`FOREIGN KEY ... ON DELETE CASCADE`) and `timestamp`.
The operations of `db_handler.py` are not under `src/` and are modelled
from the specification's store contract (spec section 4.5).
-/

/-- Metadata columns of the `songs` table (everything except the
autoincrement `id` and `created_at`). -/
structure TrackMeta where
  title : String
  artist : String
  album : Option String
  duration_ms : Option Nat
  source_type : String
  source_id : String
  cover_url : Option String
  release_date : Option String
  spotify_url : Option String
  youtube_url : Option String
  youtube_id : Option String
deriving DecidableEq, Repr

/-- One row of the `songs` table. -/
structure SongRow where
  id : Nat
  meta : TrackMeta
deriving DecidableEq, Repr

/-- One row of the `fingerprints` table:
`(hash, song_id, timestamp)` where `timestamp` is the anchor time index. -/
structure FingerprintRow where
  hash : Nat
  song_id : Nat
  timestamp : Nat
deriving DecidableEq, Repr

/-- The persistent store: both tables plus the `AUTOINCREMENT` counter. -/
structure Store where
  songs : List SongRow
  fingerprints : List FingerprintRow
  next_id : Nat
deriving DecidableEq, Repr

/-- The store error taxonomy relevant to the claims (spec section 7). -/
inductive DbError where
  | duplicateTrack
  | notFound
  | foreignKeyViolation
deriving DecidableEq, Repr

/-- SQLite `AUTOINCREMENT` ids start at 1; both tables start empty. -/
def emptyStore : Store := ⟨[], [], 1⟩

/-- Does some `songs` row already carry this `(source_type, source_id)`
pair?  (The column pair is `UNIQUE` in `schema.sql`.) -/
def hasSourcePair (st : Store) (stype sid : String) : Bool :=
  st.songs.any (fun s => s.meta.source_type == stype && s.meta.source_id == sid)

/-- Is a song with this id present? -/
def hasSong (st : Store) (sid : Nat) : Bool :=
  st.songs.any (fun s => s.id == sid)

/-- Modelled from the spec: `db_handler.add_song` — insert a new track,
returning its fresh `song_id`; reinsertion of a stored
`(source_type, source_id)` pair is rejected as `DuplicateTrack`, per the
`UNIQUE(source_type, source_id)` constraint of `schema.sql`. -/
def addSong (m : TrackMeta) (st : Store) : Except DbError Nat × Store :=
  if hasSourcePair st m.source_type m.source_id then
    (Except.error DbError.duplicateTrack, st)
  else
    (Except.ok st.next_id,
      { songs := st.songs ++ [⟨st.next_id, m⟩],
        fingerprints := st.fingerprints,
        next_id := st.next_id + 1 })

/-- Modelled from the spec: `db_handler.store_fingerprints` — atomically
append all `(hash, timestamp)` pairs for one track; the
`FOREIGN KEY (song_id) REFERENCES songs(id)` constraint of `schema.sql`
rejects fingerprints of an absent track. -/
def addFingerprints (sid : Nat) (fps : List (Nat × Nat)) (st : Store) :
    Except DbError Unit × Store :=
  if hasSong st sid then
    (Except.ok (),
      { songs := st.songs,
        fingerprints := st.fingerprints ++ fps.map (fun p => ⟨p.1, sid, p.2⟩),
        next_id := st.next_id })
  else
    (Except.error DbError.foreignKeyViolation, st)

/-- Modelled from the spec: `delete_track` — remove the track and, per
`ON DELETE CASCADE` in `schema.sql`, every fingerprint row carrying its
`song_id`, in one step; `NotFound` on unknown ids. -/
def deleteTrack (sid : Nat) (st : Store) : Except DbError Unit × Store :=
  if hasSong st sid then
    (Except.ok (),
      { songs := st.songs.filter (fun s => !(s.id == sid)),
        fingerprints := st.fingerprints.filter (fun f => !(f.song_id == sid)),
        next_id := st.next_id })
  else
    (Except.error DbError.notFound, st)

/-- The number of library tracks, as reported by the stats endpoint. -/
def songCount (st : Store) : Nat := st.songs.length

/-- The store states reachable from the empty store through the store's
operations (each operation returns the unchanged state on error). -/
inductive Reachable : Store → Prop where
  | init : Reachable emptyStore
  | addSongStep (m : TrackMeta) (st : Store) :
      Reachable st → Reachable (addSong m st).2
  | addFingerprintsStep (sid : Nat) (fps : List (Nat × Nat)) (st : Store) :
      Reachable st → Reachable (addFingerprints sid fps st).2
  | deleteTrackStep (sid : Nat) (st : Store) :
      Reachable st → Reachable (deleteTrack sid st).2

/-- Claim C4: inserting a track whose `(source_type, source_id)` pair is
already stored fails with `DuplicateTrack` and leaves the store unchanged:
same track rows, same song count, same fingerprints. -/
theorem duplicate_insert_rejected (m : TrackMeta) (st : Store)
    (hdup : hasSourcePair st m.source_type m.source_id = true) :
    (addSong m st).1 = Except.error DbError.duplicateTrack ∧
    (addSong m st).2 = st ∧
    (addSong m st).2.songs = st.songs ∧
    songCount (addSong m st).2 = songCount st ∧
    (addSong m st).2.fingerprints = st.fingerprints := by
  rw [addSong, if_pos hdup]
  exact ⟨rfl, rfl, rfl, rfl, rfl⟩

/-- Witness for C4: reinserting the pair `("spotify", "abc")` into a
one-track store is rejected and the song count stays 1. -/
theorem duplicate_insert_rejected_witness :
    (addSong ⟨"t2", "a2", none, none, "spotify", "abc", none, none, none, none, none⟩
        ⟨[⟨1, ⟨"t", "a", none, none, "spotify", "abc", none, none, none, none, none⟩⟩], [], 2⟩).1
      = Except.error DbError.duplicateTrack ∧
    songCount (addSong ⟨"t2", "a2", none, none, "spotify", "abc", none, none, none, none, none⟩
        ⟨[⟨1, ⟨"t", "a", none, none, "spotify", "abc", none, none, none, none, none⟩⟩], [], 2⟩).2
      = 1 :=
  ⟨(duplicate_insert_rejected _ _ (by decide)).1,
    ((duplicate_insert_rejected _ _ (by decide)).2.2.2.1).trans rfl⟩

/-- In every reachable store state, every fingerprint row references an
existing track (the `FOREIGN KEY` of `schema.sql`). -/
theorem reachable_fingerprints_reference_track (st : Store) (hst : Reachable st) :
    ∀ f ∈ st.fingerprints, hasSong st f.song_id = true := by
  induction hst with
  | init =>
    intro f hf
    simp [emptyStore] at hf
  | addSongStep m st _ ih =>
    intro f hf
    by_cases hc : hasSourcePair st m.source_type m.source_id = true
    · rw [addSong, if_pos hc] at hf ⊢
      exact ih f hf
    · rw [addSong, if_neg hc] at hf ⊢
      have hmem : f ∈ st.fingerprints := hf
      have hold := ih f hmem
      rw [hasSong] at hold ⊢
      simp only [List.any_append, hold, Bool.true_or]
  | addFingerprintsStep sid fps st _ ih =>
    intro f hf
    by_cases hc : hasSong st sid = true
    · rw [addFingerprints, if_pos hc] at hf ⊢
      have hmem : f ∈ st.fingerprints ++ fps.map (fun p => ⟨p.1, sid, p.2⟩) := hf
      rcases List.mem_append.mp hmem with hold | hnew
      · exact ih f hold
      · rcases List.mem_map.mp hnew with ⟨p, _, hp⟩
        have : f.song_id = sid := by rw [← hp]
        rw [this]
        exact hc
    · rw [addFingerprints, if_neg hc] at hf ⊢
      exact ih f hf
  | deleteTrackStep sid st _ ih =>
    intro f hf
    by_cases hc : hasSong st sid = true
    · rw [deleteTrack, if_pos hc] at hf ⊢
      have hmem : f ∈ st.fingerprints.filter (fun f => !(f.song_id == sid)) := hf
      have hin := (List.mem_filter.mp hmem).1
      have hne := (List.mem_filter.mp hmem).2
      have hold := ih f hin
      rw [hasSong] at hold
      rcases List.any_eq_true.mp hold with ⟨s, hs, hsid⟩
      rw [hasSong]
      apply List.any_eq_true.mpr
      refine ⟨s, List.mem_filter.mpr ⟨hs, ?_⟩, hsid⟩
      have hf_ne : (f.song_id == sid) = false := by
        cases h : f.song_id == sid
        · rfl
        · rw [h] at hne
          simp at hne
      have hs_eq : s.id = f.song_id := by simpa using hsid
      simp only [hs_eq, Bool.not_eq_true']
      exact hf_ne
    · rw [deleteTrack, if_neg hc] at hf ⊢
      exact ih f hf

/-- Claim C5: in every reachable store state every fingerprint references an
existing track, and `delete_track` removes the track together with all its
fingerprint rows in one step, so no fingerprint of a deleted track remains
visible. -/
theorem delete_track_cascade (st : Store) (hst : Reachable st) (sid : Nat) :
    (∀ f ∈ st.fingerprints, hasSong st f.song_id = true) ∧
    hasSong (deleteTrack sid st).2 sid = false ∧
    (∀ f ∈ (deleteTrack sid st).2.fingerprints, f.song_id ≠ sid) ∧
    (deleteTrack sid st).2.fingerprints =
      st.fingerprints.filter (fun f => !(f.song_id == sid)) := by
  have hinv := reachable_fingerprints_reference_track st hst
  refine ⟨hinv, ?_, ?_, ?_⟩
  · by_cases hc : hasSong st sid = true
    · rw [deleteTrack, if_pos hc]
      show (st.songs.filter (fun s => !(s.id == sid))).any (fun s => s.id == sid) = false
      apply List.any_eq_false.mpr
      intro s hs
      have hsfalse := (List.mem_filter.mp hs).2
      rw [Bool.not_eq_true'] at hsfalse
      simp [hsfalse]
    · rw [deleteTrack, if_neg hc]
      exact Bool.not_eq_true _ ▸ hc
  · intro f hf
    by_cases hc : hasSong st sid = true
    · rw [deleteTrack, if_pos hc] at hf
      have hmem : f ∈ st.fingerprints.filter (fun f => !(f.song_id == sid)) := hf
      have := (List.mem_filter.mp hmem).2
      intro heq
      rw [heq] at this
      simp at this
    · rw [deleteTrack, if_neg hc] at hf
      intro heq
      have := hinv f hf
      rw [heq] at this
      exact absurd this (by simp [hc])
  · by_cases hc : hasSong st sid = true
    · rw [deleteTrack, if_pos hc]
    · rw [deleteTrack, if_neg hc]
      have hnone : ∀ f ∈ st.fingerprints, (!(f.song_id == sid)) = true := by
        intro f hf
        have := hinv f hf
        cases h : f.song_id == sid
        · rfl
        · have heq : f.song_id = sid := by simpa using h
          rw [heq] at this
          exact absurd this (by simp [hc])
      exact ((List.filter_eq_self).mpr hnone).symm

/-- Witness for C5: a store reached by inserting one track (id 1) and one
fingerprint row for it, then deleting track 1. -/
theorem delete_track_cascade_witness :
    (∀ f ∈ ((addFingerprints 1 [(42, 7)]
        (addSong ⟨"t", "a", none, none, "spotify", "s1", none, none, none, none, none⟩
          emptyStore).2).2).fingerprints,
      hasSong ((addFingerprints 1 [(42, 7)]
        (addSong ⟨"t", "a", none, none, "spotify", "s1", none, none, none, none, none⟩
          emptyStore).2).2) f.song_id = true) ∧
    hasSong (deleteTrack 1 ((addFingerprints 1 [(42, 7)]
        (addSong ⟨"t", "a", none, none, "spotify", "s1", none, none, none, none, none⟩
          emptyStore).2).2)).2 1 = false ∧
    (∀ f ∈ (deleteTrack 1 ((addFingerprints 1 [(42, 7)]
        (addSong ⟨"t", "a", none, none, "spotify", "s1", none, none, none, none, none⟩
          emptyStore).2).2)).2.fingerprints, f.song_id ≠ 1) ∧
    (deleteTrack 1 ((addFingerprints 1 [(42, 7)]
        (addSong ⟨"t", "a", none, none, "spotify", "s1", none, none, none, none, none⟩
          emptyStore).2).2)).2.fingerprints =
      ((addFingerprints 1 [(42, 7)]
        (addSong ⟨"t", "a", none, none, "spotify", "s1", none, none, none, none, none⟩
          emptyStore).2).2).fingerprints.filter (fun f => !(f.song_id == 1)) :=
  delete_track_cascade _
    (Reachable.addFingerprintsStep 1 [(42, 7)] _
      (Reachable.addSongStep _ emptyStore Reachable.init)) 1

/-! ## Match endpoint response and client handling (spec section 6,
`HomePage.jsx`)

`backend/app.py` is not under `src/`; the match endpoint's response is
modelled from the specification's Query API contract.  The client-side
handling is translated from `sendAudioViaHttp` in
`frontend/src/pages/HomePage.jsx`.
-/

/-- The JSON body of a processed match response (spec section 6). -/
structure MatchResponse where
  success : Bool
  match_found : Bool
  song_id : Option Nat
  score : Option Nat
  timestamp : Option Nat
  error : Option String
deriving DecidableEq, Repr

/-- `timestamp = floor(offset_seconds)` clamped to `≥ 0`, with
`offset_seconds = offset_delta * hop_size / sample_rate`.  `Int.fdiv` is
floor division and `Int.toNat` clamps negatives to 0. -/
def matchTimestamp (delta : Int) : Nat :=
  ((delta * (hopSize : Int)).fdiv (sampleRate : Int)).toNat

/-- Modelled from the spec: the match endpoint of `backend/app.py` turns
the matcher's candidate list into a JSON response; an empty candidate list
is a normal processed result with `match_found: false`, never an error. -/
def matchEndpoint (cands : List MatchCandidate) : MatchResponse :=
  match cands with
  | [] => ⟨true, false, none, none, none, none⟩
  | c :: _ =>
      ⟨true, true, some c.song_id, some c.score, some (matchTimestamp c.offset_delta), none⟩

/-- The three user-visible outcomes of `sendAudioViaHttp` (`HomePage.jsx`). -/
inductive ClientOutcome where
  | matched (r : MatchResponse)
  | noMatchView
  | errorView (msg : String)
deriving DecidableEq, Repr

/-- The response dispatch of `sendAudioViaHttp` (`HomePage.jsx`): on
`result.success`, `result.match_found` decides between `handleMatch` and
`handleNoMatch`; otherwise `handleError(result.error || ...)`. -/
def handleHttpResult (r : MatchResponse) : ClientOutcome :=
  if r.success then
    if r.match_found then ClientOutcome.matched r else ClientOutcome.noMatchView
  else
    ClientOutcome.errorView ((r.error).getD "Failed to process audio.")

/-- Claim C6: every processed match response carries the boolean fields
`success` and `match_found`; `match_found` is false exactly on an empty
candidate list, in which case the client lands on the no-match view — the
endpoint never produces an error outcome for a processed request. -/
theorem match_endpoint_contract (cands : List MatchCandidate) :
    (matchEndpoint cands).success = true ∧
    ((matchEndpoint cands).match_found = false ↔ cands = []) ∧
    (cands = [] → handleHttpResult (matchEndpoint cands) = ClientOutcome.noMatchView) ∧
    (∀ msg, handleHttpResult (matchEndpoint cands) ≠ ClientOutcome.errorView msg) := by
  cases cands with
  | nil => refine ⟨rfl, by simp [matchEndpoint], fun _ => rfl, fun msg => by
      simp [matchEndpoint, handleHttpResult]⟩
  | cons c cs => refine ⟨rfl, by simp [matchEndpoint], fun h => by simp at h, fun msg => by
      simp [matchEndpoint, handleHttpResult]⟩

/-- Witness for C6 at the empty candidate list (no confident match). -/
theorem match_endpoint_contract_witness :
    (matchEndpoint []).success = true ∧
    handleHttpResult (matchEndpoint []) = ClientOutcome.noMatchView :=
  ⟨(match_endpoint_contract []).1, (match_endpoint_contract []).2.2.1 rfl⟩

/-! ## Stats API (`AdminPage.jsx`, spec section 6)

`fetchStats` in `frontend/src/pages/AdminPage.jsx` issues
`fetch('http://localhost:5001/api/stats')` and reads `data.success` and
`data.stats.song_count` from the JSON body.  The backend handler is not
under `src/`; its body is modelled as the shape the in-src client consumes.
-/

/-- A minimal JSON value model for the stats response body. -/
inductive Json where
  | num (n : Nat)
  | bool (b : Bool)
  | str (s : String)
  | obj (fields : List (String × Json))

/-- Field lookup in a JSON object, first match wins. -/
def jsonLookup (fields : List (String × Json)) (k : String) : Option Json :=
  match fields with
  | [] => none
  | (k2, v) :: rest => if k2 == k then some v else jsonLookup rest k

/-- The URL `fetchStats` requests (`AdminPage.jsx` line 10). -/
def statsRequestUrl : String := "http://localhost:5001/api/stats"

/-- `fetchStats` (`AdminPage.jsx`): the song count the client extracts from
a response body — only read when `data.success` is true, and taken from
`data.stats.song_count`. -/
def fetchStatsCount (body : Json) : Option Nat :=
  match body with
  | Json.obj fields =>
    match jsonLookup fields "success" with
    | some (Json.bool true) =>
      match jsonLookup fields "stats" with
      | some (Json.obj sf) =>
        match jsonLookup sf "song_count" with
        | some (Json.num n) => some n
        | _ => none
      | _ => none
    | _ => none
  | _ => none

/-- Modelled from the spec and the in-src client: the stats endpoint of
`backend/app.py` (not under `src/`) reports the library's song count in the
shape the client reads, `{ success: true, stats: { song_count: N } }`. -/
def statsEndpoint (st : Store) : Json :=
  Json.obj [("success", Json.bool true),
    ("stats", Json.obj [("song_count", Json.num (songCount st))])]

/-- Stated from the spec's words, for comparison: a body that is exactly
`{ song_count: N }`. -/
def claimedStatsBody (count : Nat) : Json :=
  Json.obj [("song_count", Json.num count)]

/-- Counterexample to claim C7 as stated: the in-src client requests
`/api/stats`, not `/stats`, and on a body that is exactly
`{ song_count: 5 }` it extracts no count at all (it requires `success` and
a nested `stats` object), while it does extract the count from the
modelled response of a 5-track store. -/
theorem stats_shape_counterexample :
    fetchStatsCount (claimedStatsBody 5) = none ∧
    fetchStatsCount (statsEndpoint ⟨[⟨1, ⟨"t", "a", none, none, "f", "1", none, none,
      none, none, none⟩⟩, ⟨2, ⟨"t", "a", none, none, "f", "2", none, none, none, none,
      none⟩⟩, ⟨3, ⟨"t", "a", none, none, "f", "3", none, none, none, none, none⟩⟩,
      ⟨4, ⟨"t", "a", none, none, "f", "4", none, none, none, none, none⟩⟩,
      ⟨5, ⟨"t", "a", none, none, "f", "5", none, none, none, none, none⟩⟩], [], 6⟩)
      = some 5 ∧
    statsRequestUrl ≠ "http://localhost:5001" ++ "/stats" := by
  refine ⟨rfl, rfl, ?_⟩
  decide

/-- Claim C7 as amended: the stats API is an HTTP GET at `/api/stats` whose
JSON body is `{ success: bool, stats: { song_count: integer } }`, where
`song_count` is the number of tracks in the library; the client reads the
count from `stats.song_count`. -/
theorem stats_endpoint_shape (st : Store) :
    fetchStatsCount (statsEndpoint st) = some (songCount st) ∧
    statsRequestUrl = "http://localhost:5001/api/stats" :=
  ⟨rfl, rfl⟩

/-! ## Client identification flow (`HomePage.jsx`, `websocketService.js`) -/

/-- A recorded audio blob; only its byte size matters to the control flow. -/
structure Blob where
  size : Nat
deriving DecidableEq, Repr

/-- A network request the client can issue. -/
inductive Request where
  | httpPost (url : String) (formFields : List (String × Blob))
  | wsSend (url : String) (payload : Blob)
deriving DecidableEq, Repr

/-- `sendAudioViaHttp` (`HomePage.jsx`): one HTTP POST to
`/api/match_live_audio` whose multipart form carries the blob in the field
named `audio_data`. -/
def sendAudioViaHttp (audioBlob : Blob) : List Request :=
  [Request.httpPost "/api/match_live_audio" [("audio_data", audioBlob)]]

/-- The views `HomePage.jsx` can show. -/
inductive HomeView where
  | idle
  | listening
  | processing
  | result
  | errorView (msg : String)
deriving DecidableEq, Repr

/-- `handleStopRecording` (`HomePage.jsx`): a non-empty blob is sent via
`sendAudioViaHttp` with the view set to `processing`; an empty blob issues
no request and reports a local error.  The import of
`identifyViaWebSocket` is commented out in `HomePage.jsx`; the stop handler
can only ever call `sendAudioViaHttp`. -/
def handleStopRecording (audioBlob : Blob) : List Request × HomeView :=
  if audioBlob.size > 0 then
    (sendAudioViaHttp audioBlob, HomeView.processing)
  else
    ([], HomeView.errorView
      "Recording failed or was empty. Please check microphone permissions and try again.")

/-- Claim C8: every request the identification flow issues is the HTTP POST
multipart form to `/api/match_live_audio` carrying the blob in the field
`audio_data`; no request is ever a WebSocket send. -/
theorem identification_http_only (audioBlob : Blob) (r : Request)
    (hr : r ∈ (handleStopRecording audioBlob).1) :
    r = Request.httpPost "/api/match_live_audio" [("audio_data", audioBlob)] ∧
    ∀ u p, r ≠ Request.wsSend u p := by
  by_cases h : audioBlob.size > 0
  · rw [handleStopRecording, if_pos h] at hr
    have hr1 : r = Request.httpPost "/api/match_live_audio" [("audio_data", audioBlob)] :=
      List.mem_singleton.mp hr
    exact ⟨hr1, fun u p hws => by rw [hr1] at hws; exact Request.noConfusion hws⟩
  · rw [handleStopRecording, if_neg h] at hr
    simp at hr

/-- Witness for C8 at a one-byte blob. -/
theorem identification_http_only_witness :
    Request.httpPost "/api/match_live_audio" [("audio_data", ⟨1⟩)]
        ∈ (handleStopRecording ⟨1⟩).1 ∧
    ∀ u p, Request.httpPost "/api/match_live_audio" [("audio_data", (⟨1⟩ : Blob))]
        ≠ Request.wsSend u p :=
  ⟨List.mem_singleton.mpr rfl,
    (identification_http_only ⟨1⟩ _ (List.mem_singleton.mpr rfl)).2⟩

/-! ### WebSocket identification path (`websocketService.js`) -/

/-- The parse outcomes of one server message in `socket.onmessage`:
a `status` of `match_found`, `no_match` or `error`, an unknown status, or
a JSON parse failure. -/
inductive WsMessage where
  | matchFound
  | noMatch
  | errorStatus
  | unknownStatus
  | unparsable
deriving DecidableEq, Repr

/-- The socket events after the connection opened. -/
inductive WsEvent where
  | message (m : WsMessage)
  | socketError
deriving DecidableEq, Repr

/-- The callbacks of `identifyViaWebSocket`. -/
inductive WsCallback where
  | onMatch
  | onNoMatch
  | onError
deriving DecidableEq, Repr

/-- The single callback one handled event invokes (`socket.onmessage`
dispatches on `message.status`; unknown statuses, parse failures and
`socket.onerror` all go to `onError`). -/
def callbackFor : WsEvent → WsCallback
  | WsEvent.message WsMessage.matchFound => WsCallback.onMatch
  | WsEvent.message WsMessage.noMatch => WsCallback.onNoMatch
  | WsEvent.message WsMessage.errorStatus => WsCallback.onError
  | WsEvent.message WsMessage.unknownStatus => WsCallback.onError
  | WsEvent.message WsMessage.unparsable => WsCallback.onError
  | WsEvent.socketError => WsCallback.onError

/-- The event loop of `identifyViaWebSocket`: when `isClosed` is set every
message or error event returns immediately; otherwise the event's callback
fires and the `finally`-run `cleanup` sets `isClosed`. -/
def processWsEvents : Bool → List WsEvent → List WsCallback
  | _, [] => []
  | true, _ :: es => processWsEvents true es
  | false, e :: es => callbackFor e :: processWsEvents true es

/-- `socket.onopen`: an empty blob is reported through `onError` and the
socket is cleaned up without sending; otherwise the blob is sent and the
connection stays open. -/
def wsOnOpen (audioBlob : Blob) : List WsCallback × Bool :=
  if audioBlob.size > 0 then ([], false) else ([WsCallback.onError], true)

/-- The payloads `socket.send` is actually called with in `onopen`. -/
def wsSendsOnOpen (audioBlob : Blob) : List Blob :=
  if audioBlob.size > 0 then [audioBlob] else []

/-- One full run of `identifyViaWebSocket`: the open handler followed by
the stream of later socket events. -/
def identifyViaWebSocket (audioBlob : Blob) (events : List WsEvent) : List WsCallback :=
  (wsOnOpen audioBlob).1 ++ processWsEvents (wsOnOpen audioBlob).2 events

/-- After `cleanup` has run, every later event is ignored. -/
theorem processWsEvents_closed (events : List WsEvent) :
    processWsEvents true events = [] := by
  induction events with
  | nil => rfl
  | cons e es ih => rw [processWsEvents, ih]

/-- Claim C9: per call to `identifyViaWebSocket` at most one of the
callbacks `onMatch`, `onNoMatch`, `onError` ever fires, whatever the
sequence of server messages and error events. -/
theorem ws_at_most_one_terminal_callback (audioBlob : Blob) (events : List WsEvent) :
    (identifyViaWebSocket audioBlob events).length ≤ 1 := by
  rw [identifyViaWebSocket, wsOnOpen]
  by_cases h : audioBlob.size > 0
  · rw [if_pos h]
    cases events with
    | nil => simp [processWsEvents]
    | cons e es =>
      rw [processWsEvents, processWsEvents_closed]
      simp
  · rw [if_neg h]
    rw [processWsEvents_closed]
    simp

/-- Claim C10: an empty recorded blob is never sent to the backend — the
HTTP path issues no request and shows a local error view, and the
WebSocket open handler sends nothing and reports `onError` locally. -/
theorem empty_blob_never_sent (audioBlob : Blob) (h : audioBlob.size = 0) :
    (handleStopRecording audioBlob).1 = [] ∧
    (handleStopRecording audioBlob).2 = HomeView.errorView
      "Recording failed or was empty. Please check microphone permissions and try again." ∧
    wsSendsOnOpen audioBlob = [] ∧
    (wsOnOpen audioBlob).1 = [WsCallback.onError] := by
  have h0 : ¬ audioBlob.size > 0 := by omega
  rw [handleStopRecording, if_neg h0, wsSendsOnOpen, if_neg h0, wsOnOpen, if_neg h0]
  exact ⟨rfl, rfl, rfl, rfl⟩

/-- Witness for C10 at the empty blob. -/
theorem empty_blob_never_sent_witness :
    (handleStopRecording ⟨0⟩).1 = [] ∧
    (handleStopRecording ⟨0⟩).2 = HomeView.errorView
      "Recording failed or was empty. Please check microphone permissions and try again." ∧
    wsSendsOnOpen ⟨0⟩ = [] ∧
    (wsOnOpen ⟨0⟩).1 = [WsCallback.onError] :=
  empty_blob_never_sent ⟨0⟩ rfl
